import Mathlib

/-!
Shallow embedding of the travelplanner repository's planner core
(`src/planner_agent.py` and `src/planner_agent_func.py`): the capability
registry built by discovery, the capability resolver, the per-domain
search/book workflows of `plan_trip`, and the final status aggregation.
Python dicts are modelled as insertion-ordered association lists, Python
truthiness is modelled explicitly, and every remote interaction is
parameterised by the response the remote service would give.
-/

/-- Scalar JSON-ish value stored in an entity slot or payload field
(Python: `None`, a string, or an int). -/
inductive EVal where
  | vnull : EVal
  | vstr : String → EVal
  | vnum : Nat → EVal
deriving DecidableEq, Repr

/-- Python truthiness of an entity/payload value: `None`, `""` and `0` are
falsy, everything else truthy. -/
def EVal.truthy : EVal → Bool
  | .vnull => false
  | .vstr s => !s.isEmpty
  | .vnum n => n != 0

/-- Whether the value is Python `None` (used by `call_agent_api`'s
`v is not None` filter, which keeps `""` and `0`). -/
def EVal.isNull : EVal → Bool
  | .vnull => true
  | _ => false

/-- Python truthiness of an optional string (`None` and `""` falsy). -/
def optStrTruthy : Option String → Bool
  | none => false
  | some s => !s.isEmpty

/-- The flat entity map produced by the LLM / parse step: the thirteen slots
named in both planner files (`origin`, ..., `carType`). -/
structure Entities where
  origin : EVal
  destination : EVal
  departureDate : EVal
  returnDate : EVal
  passengers : EVal
  location : EVal
  checkInDate : EVal
  checkOutDate : EVal
  guests : EVal
  hotel_location_preference : EVal
  pickupDate : EVal
  dropoffDate : EVal
  carType : EVal
deriving DecidableEq, Repr

/-- `entities.get(field)`: dictionary lookup by slot name, `None` for an
unknown key (Python `dict.get` default). -/
def Entities.get (e : Entities) : String → EVal
  | "origin" => e.origin
  | "destination" => e.destination
  | "departureDate" => e.departureDate
  | "returnDate" => e.returnDate
  | "passengers" => e.passengers
  | "location" => e.location
  | "checkInDate" => e.checkInDate
  | "checkOutDate" => e.checkOutDate
  | "guests" => e.guests
  | "hotel_location_preference" => e.hotel_location_preference
  | "pickupDate" => e.pickupDate
  | "dropoffDate" => e.dropoffDate
  | "carType" => e.carType
  | _ => EVal.vnull

/-- Python `any(entities.values())` over the thirteen slots. -/
def Entities.anyTruthy (e : Entities) : Bool :=
  e.origin.truthy || e.destination.truthy || e.departureDate.truthy ||
  e.returnDate.truthy || e.passengers.truthy || e.location.truthy ||
  e.checkInDate.truthy || e.checkOutDate.truthy || e.guests.truthy ||
  e.hotel_location_preference.truthy || e.pickupDate.truthy ||
  e.dropoffDate.truthy || e.carType.truthy

/-- Entity map with every slot `None` (what `call_local_llm` yields on a
failed parse, modulo the empty dict reading identically through `.get`). -/
def Entities.allNull : Entities :=
  ⟨.vnull, .vnull, .vnull, .vnull, .vnull, .vnull, .vnull, .vnull, .vnull,
   .vnull, .vnull, .vnull, .vnull⟩

/-! ### Insertion-ordered dictionaries (Python `dict`) -/

/-- Python `d[k] = v`: overwrite in place if the key exists (keeping its
insertion position), otherwise append at the end. -/
def dinsert {α : Type} (k : String) (v : α) : List (String × α) → List (String × α)
  | [] => [(k, v)]
  | (k', v') :: rest => if k' = k then (k, v) :: rest else (k', v') :: dinsert k v rest

/-- Python `d.get(k)`: first (and, for dicts built via `dinsert`, only)
binding of the key. -/
def alookup {α : Type} : List (String × α) → String → Option α
  | [], _ => none
  | (k', v) :: rest, k => if k' = k then some v else alookup rest k

/-- Key list of an association list. -/
def akeys {α : Type} (l : List (String × α)) : List String :=
  l.map Prod.fst

/-- Python `r.update(d)`: write every binding of `d` into `r`, in `d`'s
iteration order. -/
def updAll {α : Type} (d r : List (String × α)) : List (String × α) :=
  d.foldl (fun acc kv => dinsert kv.1 kv.2 acc) r

theorem alookup_dinsert_self {α : Type} (k : String) (v : α) (l : List (String × α)) :
    alookup (dinsert k v l) k = some v := by
  induction l with
  | nil => simp [dinsert, alookup]
  | cons hd tl ih =>
    obtain ⟨k', v'⟩ := hd
    by_cases h : k' = k
    · simp [dinsert, alookup, h]
    · simp [dinsert, alookup, h, ih]

theorem alookup_dinsert_ne {α : Type} {k k' : String} (v : α) (l : List (String × α))
    (h : k' ≠ k) : alookup (dinsert k v l) k' = alookup l k' := by
  induction l with
  | nil => simp [dinsert, alookup, Ne.symm h]
  | cons hd tl ih =>
    obtain ⟨k₀, v₀⟩ := hd
    by_cases h0 : k₀ = k
    · subst h0
      simp [dinsert, alookup, Ne.symm h]
    · by_cases h1 : k₀ = k'
      · simp [dinsert, alookup, h0, h1, h]
      · simp [dinsert, alookup, h0, h1, ih]

theorem dinsert_eq_self_of_alookup {α : Type} {k : String} {v : α} :
    ∀ {l : List (String × α)}, alookup l k = some v → dinsert k v l = l := by
  intro l
  induction l with
  | nil => intro h; simp [alookup] at h
  | cons hd tl ih =>
    obtain ⟨k₀, v₀⟩ := hd
    intro h
    by_cases h0 : k₀ = k
    · subst h0
      simp [alookup] at h
      simp [dinsert, h]
    · simp [alookup, h0] at h
      simp [dinsert, h0, ih h]

theorem mem_akeys_dinsert {α : Type} (k x : String) (v : α) (l : List (String × α)) :
    x ∈ akeys (dinsert k v l) ↔ x ∈ akeys l ∨ x = k := by
  induction l with
  | nil => simp [dinsert, akeys]
  | cons hd tl ih =>
    obtain ⟨k₀, v₀⟩ := hd
    by_cases h0 : k₀ = k
    · subst h0
      simp [dinsert, akeys]
      tauto
    · simp [dinsert, akeys, h0] at ih ⊢
      tauto

theorem nodup_akeys_dinsert {α : Type} {k : String} {v : α} :
    ∀ {l : List (String × α)}, (akeys l).Nodup → (akeys (dinsert k v l)).Nodup := by
  intro l
  induction l with
  | nil => intro _; simp [dinsert, akeys]
  | cons hd tl ih =>
    obtain ⟨k₀, v₀⟩ := hd
    intro h
    rw [akeys, List.map_cons, List.nodup_cons] at h
    by_cases h0 : k₀ = k
    · subst h0
      rw [dinsert, if_pos rfl, akeys, List.map_cons, List.nodup_cons]
      exact h
    · rw [dinsert, if_neg h0, akeys, List.map_cons, List.nodup_cons]
      constructor
      · intro hmem
        rcases (mem_akeys_dinsert k k₀ v tl).mp hmem with hin | heq
        · exact h.1 hin
        · exact h0 heq
      · exact ih h.2

theorem alookup_updAll_of_not_mem {α : Type} {k : String} :
    ∀ {d : List (String × α)} (r : List (String × α)), k ∉ akeys d →
      alookup (updAll d r) k = alookup r k := by
  intro d
  induction d with
  | nil => intro r _; rfl
  | cons hd tl ih =>
    obtain ⟨k₀, v₀⟩ := hd
    intro r hk
    rw [akeys, List.map_cons] at hk
    have hk1 : k ≠ k₀ := by
      intro h; exact hk (by simp [h])
    have hk2 : k ∉ akeys tl := by
      intro h; exact hk (List.mem_cons_of_mem _ h)
    calc alookup (updAll ((k₀, v₀) :: tl) r) k
        = alookup (updAll tl (dinsert k₀ v₀ r)) k := rfl
      _ = alookup (dinsert k₀ v₀ r) k := ih (dinsert k₀ v₀ r) hk2
      _ = alookup r k := alookup_dinsert_ne v₀ r hk1

theorem alookup_updAll_mem {α : Type} {k : String} {v : α} :
    ∀ {d : List (String × α)} (r : List (String × α)), (akeys d).Nodup →
      (k, v) ∈ d → alookup (updAll d r) k = some v := by
  intro d
  induction d with
  | nil => intro r _ h; simp at h
  | cons hd tl ih =>
    obtain ⟨k₀, v₀⟩ := hd
    intro r hnd hmem
    rw [akeys, List.map_cons, List.nodup_cons] at hnd
    rcases List.mem_cons.mp hmem with heq | hin
    · have hk : k = k₀ := congrArg Prod.fst heq
      have hv : v = v₀ := congrArg Prod.snd heq
      subst hk
      subst hv
      have hnot : k ∉ akeys tl := hnd.1
      calc alookup (updAll ((k, v) :: tl) r) k
          = alookup (updAll tl (dinsert k v r)) k := rfl
        _ = alookup (dinsert k v r) k := alookup_updAll_of_not_mem _ hnot
        _ = some v := alookup_dinsert_self k v r
    · exact ih (dinsert k₀ v₀ r) hnd.2 hin

theorem updAll_eq_self_of_alookup {α : Type} :
    ∀ {d : List (String × α)} {s : List (String × α)},
      (∀ kv ∈ d, alookup s kv.1 = some kv.2) → updAll d s = s := by
  intro d
  induction d with
  | nil => intro s _; rfl
  | cons hd tl ih =>
    obtain ⟨k₀, v₀⟩ := hd
    intro s hall
    have h0 : alookup s k₀ = some v₀ := hall (k₀, v₀) (List.mem_cons_self _ _)
    have hins : dinsert k₀ v₀ s = s := dinsert_eq_self_of_alookup h0
    calc updAll ((k₀, v₀) :: tl) s
        = updAll tl (dinsert k₀ v₀ s) := rfl
      _ = updAll tl s := by rw [hins]
      _ = s := ih (fun kv hkv => hall kv (List.mem_cons_of_mem _ hkv))

/-! ### Agent cards, discovery (`discover_agents`) and the registry -/

/-- One capability dict inside an agent card: `capabilityId` and `path`
as reported (either may be absent / `None`). -/
structure CapCard where
  capabilityId : Option String
  path : Option String
deriving DecidableEq, Repr

/-- An agent card as fetched from `GET /agent-card`: the fields
`discover_agents` reads via `.get`. -/
structure AgentCard where
  agentId : Option String
  displayName : Option String
  endpointUrl : Option String
  capabilities : List CapCard
deriving DecidableEq, Repr

/-- A registry value: the `agent_info` dict `discover_agents` stores, with
`capabilities` as a `capabilityId -> capability dict` mapping. -/
structure AgentInfo where
  agentId : String
  displayName : String
  endpointUrl : Option String
  capabilities : List (String × CapCard)
deriving DecidableEq, Repr

/-- The global `agent_registry`: `agentId -> agent_info`, insertion ordered. -/
abbrev Registry : Type := List (String × AgentInfo)

/-- Outcome of fetching one address during discovery: a request exception,
JSON decode error or other exception (all caught and skipped), or a
parsed agent card. -/
inductive FetchOutcome where
  | failure : FetchOutcome
  | card : AgentCard → FetchOutcome
deriving DecidableEq, Repr

/-- The comprehension building `agent_info["capabilities"]`:
`{cap.get("capabilityId"): cap for cap in capabilities if cap.get("capabilityId")}`. -/
def buildCaps (caps : List CapCard) : List (String × CapCard) :=
  caps.foldl
    (fun d cap =>
      if optStrTruthy cap.capabilityId then dinsert (cap.capabilityId.getD "") cap d
      else d) []

/-- Validation and conversion of one fetched card inside `discover_agents`:
accepted only when `agentId`, `endpointUrl` are truthy and the
capabilities list is non-empty (`if agent_id and endpoint_url and capabilities:`),
otherwise the card is rejected (logged and skipped). -/
def processCard (c : AgentCard) : Option (String × AgentInfo) :=
  if optStrTruthy c.agentId && optStrTruthy c.endpointUrl && !c.capabilities.isEmpty then
    some (c.agentId.getD "",
      { agentId := c.agentId.getD ""
        displayName := c.displayName.getD (c.agentId.getD "")
        endpointUrl := c.endpointUrl
        capabilities := buildCaps c.capabilities })
  else none

/-- One loop iteration of `discover_agents` over the temporary
`discovered_agents` dict: exceptions and invalid cards leave it unchanged. -/
def discoverStep (d : List (String × AgentInfo)) (o : FetchOutcome) :
    List (String × AgentInfo) :=
  match o with
  | .failure => d
  | .card c =>
    match processCard c with
    | some (aid, info) => dinsert aid info d
    | none => d

/-- The `discovered_agents` dict built by the discovery loop from the
per-address fetch outcomes. -/
def discoverNew (outcomes : List FetchOutcome) : List (String × AgentInfo) :=
  outcomes.foldl discoverStep []

/-- `discover_agents`: run the loop over the known addresses' outcomes and
merge the result into the registry via `agent_registry.update(discovered_agents)`. -/
def discover_agents (reg : Registry) (outcomes : List FetchOutcome) : Registry :=
  updAll (discoverNew outcomes) reg

/-! ### Capability resolution (`find_agent_for_capability`) -/

/-- How one registry entry answers a capability lookup: the capability id
must be a key of the entry's capability dict and both `endpointUrl` and the
capability's `path` must be truthy; otherwise the entry does not match. -/
def entryResolve (info : AgentInfo) (cid : String) : Option (String × String) :=
  match alookup info.capabilities cid with
  | some cap =>
    if optStrTruthy info.endpointUrl && optStrTruthy cap.path then
      some (info.endpointUrl.getD "", cap.path.getD "")
    else none
  | none => none

/-- `find_agent_for_capability`: linear scan over the registry in iteration
order; an entry whose capability dict contains the id but whose
`endpointUrl` or `path` is missing is skipped and the scan continues; the
not-found signal `(None, None)` is modelled as `none`. -/
def find_agent_for_capability (reg : Registry) (cid : String) :
    Option (String × String) :=
  match reg with
  | [] => none
  | (_, info) :: rest =>
    match alookup info.capabilities cid with
    | some cap =>
      if optStrTruthy info.endpointUrl && optStrTruthy cap.path then
        some (info.endpointUrl.getD "", cap.path.getD "")
      else find_agent_for_capability rest cid
    | none => find_agent_for_capability rest cid

/-! ### Remote calls and per-domain workflow state -/

/-- One element of a search result list; only its id field
(`flightId` / `hotelId` / `carId`) is read by the planner. -/
structure Item where
  itemId : Option String
deriving DecidableEq, Repr

/-- A search response as seen by `plan_trip`: `error` is `some` exactly when
the `"error"` key is present (which is how `call_agent_api` reports
transport failures), and `items` is the result-list field
(`flights` / `hotels` / `cars`), `none` when that key is absent. -/
structure SearchResp where
  error : Option String
  items : Option (List Item)
deriving DecidableEq, Repr

/-- A booking response: `"error"` key, `status`, and `bookingId`. -/
structure BookResp where
  error : Option String
  status : Option String
  bookingId : Option String
deriving DecidableEq, Repr

/-- A record of one outbound `call_agent_api` invocation: target base url,
capability path, and the JSON payload body actually sent. -/
structure CallRec where
  base : String
  path : String
  payload : List (String × EVal)
deriving DecidableEq, Repr

/-- Outcome of one domain's workflow inside `plan_trip`: the error strings
it appended, the booking id it recorded, and the outbound calls it made. -/
structure DomainOut where
  errors : List String
  bookingId : Option String
  calls : List CallRec
deriving DecidableEq, Repr

/-- `planner_agent.py` `call_agent_api`: the body sent is the payload with
`None`-valued fields removed (`{k: v for k, v in payload.items() if v is not None}`). -/
def call_agent_api_sent (payload : List (String × EVal)) : List (String × EVal) :=
  payload.filter (fun kv => !kv.2.isNull)

/-- `planner_agent_func.py` `call_agent_api`: the payload dict is posted
as-is (`requests.post(url, json=payload, ...)`), with no `None` filtering. -/
def call_agent_api_func_sent (payload : List (String × EVal)) : List (String × EVal) :=
  payload

/-- Python truthiness of `search_response.get(listField)`: false when the
key is absent or the list is empty. -/
def respListTruthy : Option (List Item) → Bool
  | none => false
  | some l => !l.isEmpty

/-- Embed the id read from a chosen item into a payload value. -/
def optToEVal : Option String → EVal
  | none => EVal.vnull
  | some s => EVal.vstr s

def required_flight_fields : List String :=
  ["origin", "destination", "departureDate", "passengers"]

def required_hotel_fields : List String :=
  ["location", "checkInDate", "checkOutDate", "guests"]

def required_car_fields : List String :=
  ["location", "pickupDate", "dropoffDate"]

/-- The `flight_payload` dict built by both planners. -/
def flight_payload (e : Entities) : List (String × EVal) :=
  [("origin", e.origin), ("destination", e.destination),
   ("departureDate", e.departureDate), ("returnDate", e.returnDate),
   ("passengers", e.passengers)]

/-- The `hotel_payload` dict built by both planners: `location` is
`hotel_location_preference or location` (Python `or`: first truthy,
else the second value). -/
def hotel_payload (e : Entities) : List (String × EVal) :=
  [("location",
     if e.hotel_location_preference.truthy then e.hotel_location_preference
     else e.location),
   ("checkInDate", e.checkInDate), ("checkOutDate", e.checkOutDate),
   ("guests", e.guests)]

/-- The `car_payload` dict built by both planners. -/
def car_payload (e : Entities) : List (String × EVal) :=
  [("location", e.location), ("pickupDate", e.pickupDate),
   ("dropoffDate", e.dropoffDate), ("carType", e.carType)]

/-- `planner_agent.py` missing-field check: all three domains filter the
required list against the raw `entities` map (`if not entities.get(field)`). -/
def missingFromEntities (required : List String) (e : Entities) : List String :=
  required.filter (fun f => !(e.get f).truthy)

/-- `planner_agent_func.py` missing-field check: the required list is
filtered against the constructed payload (`if not payload.get(field)`). -/
def missingFromPayload (required : List String) (payload : List (String × EVal)) :
    List String :=
  required.filter (fun f => !((alookup payload f).getD EVal.vnull).truthy)

/-! ### `planner_agent.py` per-domain workflows (inside `plan_trip`) -/

/-- Flight handling in `planner_agent.py` `plan_trip`: resolve
`searchFlights`, validate required entity slots, search, then (with the
`bookFlight` intent) resolve `bookFlight` and book.  The branch structure,
including the unreachable `else` under `elif search_response.get("flights"):`,
mirrors the source line by line. -/
def flight_domain (reg : Registry) (intents : List String) (e : Entities)
    (sresp : SearchResp) (bresp : BookResp) : DomainOut :=
  if intents.contains "searchFlights" then
    match find_agent_for_capability reg "searchFlights" with
    | some (url, path) =>
      let missing := missingFromEntities required_flight_fields e
      if !missing.isEmpty then
        { errors := ["Missing required flight details (from LLM output): " ++
            String.intercalate ", " missing ++ "."],
          bookingId := none, calls := [] }
      else
        let sCall : CallRec := ⟨url, path, call_agent_api_sent (flight_payload e)⟩
        match sresp.error with
        | some emsg =>
          { errors := ["Flight search failed: " ++ emsg], bookingId := none,
            calls := [sCall] }
        | none =>
          if respListTruthy sresp.items then
            let fs := sresp.items.getD []
            if !fs.isEmpty then
              let first := fs.headD ⟨none⟩
              if intents.contains "bookFlight" then
                match find_agent_for_capability reg "bookFlight" with
                | some (burl, bpath) =>
                  let bCall : CallRec := ⟨burl, bpath,
                    call_agent_api_sent [("flightId", optToEVal first.itemId)]⟩
                  match bresp.error with
                  | some bemsg =>
                    { errors := ["Flight booking failed: " ++ bemsg],
                      bookingId := none, calls := [sCall, bCall] }
                  | none =>
                    if bresp.status = some "Confirmed" then
                      { errors := [], bookingId := bresp.bookingId,
                        calls := [sCall, bCall] }
                    else
                      { errors := ["Flight booking status: " ++
                          bresp.status.getD "Unknown"],
                        bookingId := none, calls := [sCall, bCall] }
                | none =>
                  { errors := ["Could not find agent/path for 'bookFlight' capability."],
                    bookingId := none, calls := [sCall] }
              else { errors := [], bookingId := none, calls := [sCall] }
            else
              { errors := ["Flight search returned no available flights."],
                bookingId := none, calls := [sCall] }
          else
            { errors := ["Flight search response was invalid (missing 'flights' key)."],
              bookingId := none, calls := [sCall] }
    | none =>
      { errors := ["Could not find agent/path for 'searchFlights' capability."],
        bookingId := none, calls := [] }
  else { errors := [], bookingId := none, calls := [] }

/-- Hotel handling in `planner_agent.py` `plan_trip`.  Note the validation
filters the raw `entities` map (so `location` is checked even when the
payload uses `hotel_location_preference`). -/
def hotel_domain (reg : Registry) (intents : List String) (e : Entities)
    (sresp : SearchResp) (bresp : BookResp) : DomainOut :=
  if intents.contains "searchHotels" then
    match find_agent_for_capability reg "searchHotels" with
    | some (url, path) =>
      let missing := missingFromEntities required_hotel_fields e
      if !missing.isEmpty then
        { errors := ["Missing required hotel details (from LLM output): " ++
            String.intercalate ", " missing ++ "."],
          bookingId := none, calls := [] }
      else
        let sCall : CallRec := ⟨url, path, call_agent_api_sent (hotel_payload e)⟩
        match sresp.error with
        | some emsg =>
          { errors := ["Hotel search failed: " ++ emsg], bookingId := none,
            calls := [sCall] }
        | none =>
          if respListTruthy sresp.items then
            let hs := sresp.items.getD []
            if !hs.isEmpty then
              let first := hs.headD ⟨none⟩
              if intents.contains "bookHotel" then
                match find_agent_for_capability reg "bookHotel" with
                | some (burl, bpath) =>
                  let bCall : CallRec := ⟨burl, bpath,
                    call_agent_api_sent [("hotelId", optToEVal first.itemId),
                      ("roomType", EVal.vstr "Standard")]⟩
                  match bresp.error with
                  | some bemsg =>
                    { errors := ["Hotel booking failed: " ++ bemsg],
                      bookingId := none, calls := [sCall, bCall] }
                  | none =>
                    if bresp.status = some "Confirmed" then
                      { errors := [], bookingId := bresp.bookingId,
                        calls := [sCall, bCall] }
                    else
                      { errors := ["Hotel booking status: " ++
                          bresp.status.getD "Unknown"],
                        bookingId := none, calls := [sCall, bCall] }
                | none =>
                  { errors := ["Could not find agent/path for 'bookHotel' capability."],
                    bookingId := none, calls := [sCall] }
              else { errors := [], bookingId := none, calls := [sCall] }
            else
              { errors := ["Hotel search returned no available hotels."],
                bookingId := none, calls := [sCall] }
          else
            { errors := ["Hotel search response was invalid (missing 'hotels' key)."],
              bookingId := none, calls := [sCall] }
    | none =>
      { errors := ["Could not find agent/path for 'searchHotels' capability."],
        bookingId := none, calls := [] }
  else { errors := [], bookingId := none, calls := [] }

/-- Car rental handling in `planner_agent.py` `plan_trip`. -/
def car_domain (reg : Registry) (intents : List String) (e : Entities)
    (sresp : SearchResp) (bresp : BookResp) : DomainOut :=
  if intents.contains "searchCars" then
    match find_agent_for_capability reg "searchCars" with
    | some (url, path) =>
      let missing := missingFromEntities required_car_fields e
      if !missing.isEmpty then
        { errors := ["Missing required car rental details (from LLM output): " ++
            String.intercalate ", " missing ++ "."],
          bookingId := none, calls := [] }
      else
        let sCall : CallRec := ⟨url, path, call_agent_api_sent (car_payload e)⟩
        match sresp.error with
        | some emsg =>
          { errors := ["Car search failed: " ++ emsg], bookingId := none,
            calls := [sCall] }
        | none =>
          if respListTruthy sresp.items then
            let cs := sresp.items.getD []
            if !cs.isEmpty then
              let first := cs.headD ⟨none⟩
              if intents.contains "bookCar" then
                match find_agent_for_capability reg "bookCar" with
                | some (burl, bpath) =>
                  let bCall : CallRec := ⟨burl, bpath,
                    call_agent_api_sent [("carId", optToEVal first.itemId)]⟩
                  match bresp.error with
                  | some bemsg =>
                    { errors := ["Car booking failed: " ++ bemsg],
                      bookingId := none, calls := [sCall, bCall] }
                  | none =>
                    if bresp.status = some "Confirmed" then
                      { errors := [], bookingId := bresp.bookingId,
                        calls := [sCall, bCall] }
                    else
                      { errors := ["Car rental booking status: " ++
                          bresp.status.getD "Unknown"],
                        bookingId := none, calls := [sCall, bCall] }
                | none =>
                  { errors := ["Could not find agent/path for 'bookCar' capability."],
                    bookingId := none, calls := [sCall] }
              else { errors := [], bookingId := none, calls := [sCall] }
            else
              { errors := ["Car search returned no available cars."],
                bookingId := none, calls := [sCall] }
          else
            { errors := ["Car search response was invalid (missing 'cars' key)."],
              bookingId := none, calls := [sCall] }
    | none =>
      { errors := ["Could not find agent/path for 'searchCars' capability."],
        bookingId := none, calls := [] }
  else { errors := [], bookingId := none, calls := [] }

/-! ### `planner_agent_func.py` per-domain workflows -/

def FLIGHT_AGENT_URL : String := "http://127.0.0.1:5001"

def HOTEL_AGENT_URL : String := "http://127.0.0.1:5002"

def CAR_AGENT_URL : String := "http://127.0.0.1:5003"

/-- Flight handling in `planner_agent_func.py` `plan_trip`: fixed agent url,
validation against the constructed payload, raw payload posted (no `None`
filtering), and a single `else` branch (`"No flights found matching criteria."`)
for both an empty `flights` list and a missing `flights` key. -/
def flight_domain_func (intents : List String) (e : Entities)
    (sresp : SearchResp) (bresp : BookResp) : DomainOut :=
  if intents.contains "searchFlights" then
    let payload := flight_payload e
    let missing := missingFromPayload required_flight_fields payload
    if !missing.isEmpty then
      { errors := ["Missing required flight details: " ++
          String.intercalate ", " missing ++ "."],
        bookingId := none, calls := [] }
    else
      let sCall : CallRec := ⟨FLIGHT_AGENT_URL, "searchFlights",
        call_agent_api_func_sent payload⟩
      match sresp.error with
      | some emsg =>
        { errors := ["Flight search failed: " ++ emsg], bookingId := none,
          calls := [sCall] }
      | none =>
        if respListTruthy sresp.items then
          let first := (sresp.items.getD []).headD ⟨none⟩
          if intents.contains "bookFlight" then
            let bCall : CallRec := ⟨FLIGHT_AGENT_URL, "bookFlight",
              call_agent_api_func_sent [("flightId", optToEVal first.itemId)]⟩
            match bresp.error with
            | some bemsg =>
              { errors := ["Flight booking failed: " ++ bemsg],
                bookingId := none, calls := [sCall, bCall] }
            | none =>
              if bresp.status = some "Confirmed" then
                { errors := [], bookingId := bresp.bookingId, calls := [sCall, bCall] }
              else
                { errors := ["Flight booking status: " ++ bresp.status.getD "Unknown"],
                  bookingId := none, calls := [sCall, bCall] }
          else { errors := [], bookingId := none, calls := [sCall] }
        else
          { errors := ["No flights found matching criteria."], bookingId := none,
            calls := [sCall] }
  else { errors := [], bookingId := none, calls := [] }

/-- Hotel handling in `planner_agent_func.py` `plan_trip`: validation reads
the constructed `hotel_payload` (preference already substituted for
`location`), unlike `planner_agent.py`. -/
def hotel_domain_func (intents : List String) (e : Entities)
    (sresp : SearchResp) (bresp : BookResp) : DomainOut :=
  if intents.contains "searchHotels" then
    let payload := hotel_payload e
    let missing := missingFromPayload required_hotel_fields payload
    if !missing.isEmpty then
      { errors := ["Missing required hotel details: " ++
          String.intercalate ", " missing ++ "."],
        bookingId := none, calls := [] }
    else
      let sCall : CallRec := ⟨HOTEL_AGENT_URL, "searchHotels",
        call_agent_api_func_sent payload⟩
      match sresp.error with
      | some emsg =>
        { errors := ["Hotel search failed: " ++ emsg], bookingId := none,
          calls := [sCall] }
      | none =>
        if respListTruthy sresp.items then
          let first := (sresp.items.getD []).headD ⟨none⟩
          if intents.contains "bookHotel" then
            let bCall : CallRec := ⟨HOTEL_AGENT_URL, "bookHotel",
              call_agent_api_func_sent [("hotelId", optToEVal first.itemId),
                ("roomType", EVal.vstr "Standard")]⟩
            match bresp.error with
            | some bemsg =>
              { errors := ["Hotel booking failed: " ++ bemsg],
                bookingId := none, calls := [sCall, bCall] }
            | none =>
              if bresp.status = some "Confirmed" then
                { errors := [], bookingId := bresp.bookingId, calls := [sCall, bCall] }
              else
                { errors := ["Hotel booking status: " ++ bresp.status.getD "Unknown"],
                  bookingId := none, calls := [sCall, bCall] }
          else { errors := [], bookingId := none, calls := [sCall] }
        else
          { errors := ["No hotels found matching criteria."], bookingId := none,
            calls := [sCall] }
  else { errors := [], bookingId := none, calls := [] }

/-- Car rental handling in `planner_agent_func.py` `plan_trip`. -/
def car_domain_func (intents : List String) (e : Entities)
    (sresp : SearchResp) (bresp : BookResp) : DomainOut :=
  if intents.contains "searchCars" then
    let payload := car_payload e
    let missing := missingFromPayload required_car_fields payload
    if !missing.isEmpty then
      { errors := ["Missing required car rental details: " ++
          String.intercalate ", " missing ++ "."],
        bookingId := none, calls := [] }
    else
      let sCall : CallRec := ⟨CAR_AGENT_URL, "searchCars",
        call_agent_api_func_sent payload⟩
      match sresp.error with
      | some emsg =>
        { errors := ["Car search failed: " ++ emsg], bookingId := none,
          calls := [sCall] }
      | none =>
        if respListTruthy sresp.items then
          let first := (sresp.items.getD []).headD ⟨none⟩
          if intents.contains "bookCar" then
            let bCall : CallRec := ⟨CAR_AGENT_URL, "bookCar",
              call_agent_api_func_sent [("carId", optToEVal first.itemId)]⟩
            match bresp.error with
            | some bemsg =>
              { errors := ["Car booking failed: " ++ bemsg],
                bookingId := none, calls := [sCall, bCall] }
            | none =>
              if bresp.status = some "Confirmed" then
                { errors := [], bookingId := bresp.bookingId, calls := [sCall, bCall] }
              else
                { errors := ["Car rental booking status: " ++ bresp.status.getD "Unknown"],
                  bookingId := none, calls := [sCall, bCall] }
          else { errors := [], bookingId := none, calls := [sCall] }
        else
          { errors := ["No cars found matching criteria."], bookingId := none,
            calls := [sCall] }
  else { errors := [], bookingId := none, calls := [] }

/-! ### Final aggregation and `plan_trip` -/

/-- The `booked_items` list in step 4 of `plan_trip` (identical in both
planner files): a domain counts as booked when its booking id is truthy. -/
def booked_items (fB hB cB : Option String) : List String :=
  (if optStrTruthy fB then ["Flight"] else []) ++
  (if optStrTruthy hB then ["Hotel"] else []) ++
  (if optStrTruthy cB then ["Car Rental"] else [])

/-- Step 4 of `planner_agent.py` `plan_trip`: final `(status, summary)` from
the recorded booking ids, the accumulated error list, and the intent set. -/
def finalize (intents : List String) (fB hB cB : Option String)
    (errors : List String) : String × String :=
  let booked := booked_items fB hB cB
  if !booked.isEmpty && errors.isEmpty then
    ("Success", "Successfully booked: " ++ String.intercalate ", " booked ++ ".")
  else if !booked.isEmpty then
    ("Partial Success",
      "Booked: " ++ String.intercalate ", " booked ++ ". Encountered errors: " ++
      toString errors.length ++ ": " ++ String.intercalate "; " errors)
  else if !errors.isEmpty then
    ("Failed", "Planning failed. Errors: " ++ toString errors.length ++ ": " ++
      String.intercalate "; " errors)
  else if intents.isEmpty then
    ("Failed",
      "Could not understand the request or identify any services to book (LLM parsing issue).")
  else
    ("Failed",
      "Could not fulfill the request. No services found matching criteria or no booking attempted.")

/-- Step 4 of `planner_agent_func.py` `plan_trip`: same shape, different
fallback summary texts. -/
def finalize_func (intents : List String) (fB hB cB : Option String)
    (errors : List String) : String × String :=
  let booked := booked_items fB hB cB
  if !booked.isEmpty && errors.isEmpty then
    ("Success", "Successfully booked: " ++ String.intercalate ", " booked ++ ".")
  else if !booked.isEmpty then
    ("Partial Success",
      "Booked: " ++ String.intercalate ", " booked ++ ". Encountered errors: " ++
      toString errors.length ++ ": " ++ String.intercalate "; " errors)
  else if !errors.isEmpty then
    ("Failed", "Planning failed. Errors: " ++ toString errors.length ++ ": " ++
      String.intercalate "; " errors)
  else if intents.isEmpty then
    ("Failed", "Could not understand the request or identify any services to book.")
  else
    ("Failed", "Could not fulfill the request. No services were successfully searched or booked.")

/-- The six remote responses a `plan_trip` run can consume (what each
specialist endpoint would return if called). -/
structure RemoteEnv where
  flightSearch : SearchResp
  flightBook : BookResp
  hotelSearch : SearchResp
  hotelBook : BookResp
  carSearch : SearchResp
  carBook : BookResp
deriving DecidableEq, Repr

/-- Response of a `plan_trip` run: either one of the two early `500`
rejections, or the completed aggregation document
`{status, summary, details: {flightBookingId, hotelBookingId,
carRentalBookingId, errors}}`. -/
inductive PlanResponse where
  | earlyError (httpCode : Nat) (status summary : String) (errors : List String)
  | completed (status summary : String) (fB hB cB : Option String)
      (errors : List String)
deriving DecidableEq, Repr

/-- `planner_agent.py` `plan_trip` after discovery: reject with `500` when
the registry is empty; reject with `500` when the LLM produced no intents
and no truthy entity; otherwise run the three domain workflows in order
(flight, hotel, car), concatenate their errors, and aggregate. -/
def plan_trip (reg : Registry) (intents : List String) (e : Entities)
    (env : RemoteEnv) : PlanResponse :=
  if reg.isEmpty then
    .earlyError 500 "Failed" "Configuration error: No specialist agents discovered."
      ["Failed to discover specialist agents."]
  else if intents.isEmpty && !e.anyTruthy then
    .earlyError 500 "Failed"
      "Failed to process request using the local LLM. Check Planner Agent logs for details."
      ["LLM processing failed or returned no usable data."]
  else
    let fo := flight_domain reg intents e env.flightSearch env.flightBook
    let ho := hotel_domain reg intents e env.hotelSearch env.hotelBook
    let co := car_domain reg intents e env.carSearch env.carBook
    let errs := fo.errors ++ ho.errors ++ co.errors
    let fin := finalize intents fo.bookingId ho.bookingId co.bookingId errs
    .completed fin.1 fin.2 fo.bookingId ho.bookingId co.bookingId errs

/-- `planner_agent_func.py` `plan_trip`: no registry and no early LLM
rejection; the three fixed-url domain workflows run whenever their search
intent is present, then the same aggregation with its own fallback texts. -/
def plan_trip_func (intents : List String) (e : Entities) (env : RemoteEnv) :
    PlanResponse :=
  let fo := flight_domain_func intents e env.flightSearch env.flightBook
  let ho := hotel_domain_func intents e env.hotelSearch env.hotelBook
  let co := car_domain_func intents e env.carSearch env.carBook
  let errs := fo.errors ++ ho.errors ++ co.errors
  let fin := finalize_func intents fo.bookingId ho.bookingId co.bookingId errs
  .completed fin.1 fin.2 fo.bookingId ho.bookingId co.bookingId errs

/-! ### Substring test (for summary-text properties) -/

/-- Whether the second character list is an initial segment of the first. -/
def startsWithSeq : List Char → List Char → Bool
  | _, [] => true
  | [], _ :: _ => false
  | a :: as, b :: bs => a == b && startsWithSeq as bs

/-- Whether `pat` occurs contiguously inside `s`. -/
def hasSubSeq (pat : List Char) : List Char → Bool
  | [] => pat.isEmpty
  | c :: rest => startsWithSeq (c :: rest) pat || hasSubSeq pat rest

/-- Whether `pat` occurs as a substring of `s`. -/
def strHas (s pat : String) : Bool :=
  hasSubSeq pat.data s.data

/-! ### Concrete fixtures (used by witnesses and counterexamples) -/

/-- A fully populated entity map. -/
def eFull : Entities :=
  { origin := .vstr "Singapore", destination := .vstr "London",
    departureDate := .vstr "2026-11-01", returnDate := .vstr "2026-11-06",
    passengers := .vnum 2, location := .vstr "London",
    checkInDate := .vstr "2026-11-01", checkOutDate := .vstr "2026-11-06",
    guests := .vnum 2, hotel_location_preference := .vnull,
    pickupDate := .vstr "2026-11-01T12:00:00Z",
    dropoffDate := .vstr "2026-11-06T12:00:00Z", carType := .vnull }

/-- Entity map with the flight `origin` slot missing. -/
def eNoOrigin : Entities :=
  { eFull with origin := .vnull }

/-- Entity map with a hotel location preference but an empty general
`location` slot (the C10 situation). -/
def ePref : Entities :=
  { eFull with
    location := .vnull
    hotel_location_preference := .vstr "Near Eiffel Tower" }

/-- Entity map with the flight `returnDate` slot `None` (a one-way trip). -/
def eOneWay : Entities :=
  { eFull with returnDate := .vnull }

def flightCaps : List (String × CapCard) :=
  [("searchFlights", ⟨some "searchFlights", some "/searchFlights"⟩),
   ("bookFlight", ⟨some "bookFlight", some "/bookFlight"⟩)]

def hotelCaps : List (String × CapCard) :=
  [("searchHotels", ⟨some "searchHotels", some "/searchHotels"⟩),
   ("bookHotel", ⟨some "bookHotel", some "/bookHotel"⟩)]

def carCaps : List (String × CapCard) :=
  [("searchCars", ⟨some "searchCars", some "/searchCars"⟩),
   ("bookCar", ⟨some "bookCar", some "/bookCar"⟩)]

/-- Registry with the three specialist agents discovered. -/
def regFix : Registry :=
  [("flight-agent-001",
    { agentId := "flight-agent-001", displayName := "Flight Agent",
      endpointUrl := some "http://127.0.0.1:5001", capabilities := flightCaps }),
   ("hotel-agent-001",
    { agentId := "hotel-agent-001", displayName := "Hotel Agent",
      endpointUrl := some "http://127.0.0.1:5002", capabilities := hotelCaps }),
   ("car-agent-001",
    { agentId := "car-agent-001", displayName := "Car Agent",
      endpointUrl := some "http://127.0.0.1:5003", capabilities := carCaps })]

/-- Non-empty registry that offers no flight capability. -/
def regHotelOnly : Registry :=
  [("hotel-agent-001",
    { agentId := "hotel-agent-001", displayName := "Hotel Agent",
      endpointUrl := some "http://127.0.0.1:5002", capabilities := hotelCaps })]

/-- Registry whose first entry advertises `searchFlights` without a path
(so resolution must skip it) and whose second entry is complete. -/
def regSkip : Registry :=
  [("broken-agent",
    { agentId := "broken-agent", displayName := "Broken",
      endpointUrl := some "http://127.0.0.1:5009",
      capabilities := [("searchFlights", ⟨some "searchFlights", none⟩)] }),
   ("flight-agent-001",
    { agentId := "flight-agent-001", displayName := "Flight Agent",
      endpointUrl := some "http://127.0.0.1:5001", capabilities := flightCaps })]

/-- Search response with neither an `error` key nor a result-list key. -/
def sQuiet : SearchResp := ⟨none, none⟩

/-- Booking response with no `error`, `status` or `bookingId`. -/
def bQuiet : BookResp := ⟨none, none, none⟩

/-- Remote environment in which every call would come back empty. -/
def envQuiet : RemoteEnv := ⟨sQuiet, bQuiet, sQuiet, bQuiet, sQuiet, bQuiet⟩

/-- An agent card with no `endpointUrl` (rejected by discovery validation). -/
def cardNoUrl : AgentCard :=
  ⟨some "x-agent", some "X", none, [⟨some "c", some "/c"⟩]⟩

/-! ### C5 -/

theorem find_agent_cons (aid : String) (info : AgentInfo) (rest : Registry)
    (cid : String) :
    find_agent_for_capability ((aid, info) :: rest) cid =
      match entryResolve info cid with
      | some r => some r
      | none => find_agent_for_capability rest cid := by
  cases h : alookup info.capabilities cid with
  | none => simp [find_agent_for_capability, entryResolve, h]
  | some cap =>
    by_cases hb : (optStrTruthy info.endpointUrl && optStrTruthy cap.path) = true
    · simp [find_agent_for_capability, entryResolve, h, hb]
    · simp [find_agent_for_capability, entryResolve, h, hb]

/-- C5: resolution scans the registry in iteration order and returns the
endpoint of the first entry whose capability dict contains the id with a
truthy endpoint url and invocation path; entries that contain the id but
lack the url or path are treated as non-matching and skipped; when no entry
matches, the not-found signal is returned deterministically. -/
theorem c5_resolution_first_match (reg : Registry) (cid : String) :
    (∀ u p, find_agent_for_capability reg cid = some (u, p) →
      ∃ pre q post, reg = pre ++ q :: post ∧
        (∀ q' ∈ pre, entryResolve q'.2 cid = none) ∧
        entryResolve q.2 cid = some (u, p)) ∧
    (find_agent_for_capability reg cid = none ↔
      ∀ q ∈ reg, entryResolve q.2 cid = none) := by
  induction reg with
  | nil =>
    constructor
    · intro u p h
      simp [find_agent_for_capability] at h
    · simp [find_agent_for_capability]
  | cons hd rest ih =>
    obtain ⟨aid, info⟩ := hd
    rw [find_agent_cons aid info rest cid]
    cases hr : entryResolve info cid with
    | some r =>
      constructor
      · intro u p h
        simp at h
        refine ⟨[], (aid, info), rest, rfl, by simp, ?_⟩
        rw [hr, h]
      · constructor
        · intro h; simp at h
        · intro hall
          have hh := hall (aid, info) (List.mem_cons_self _ _)
          rw [hr] at hh
          simp at hh
    | none =>
      constructor
      · intro u p h
        obtain ⟨pre, q, post, heq, hpre, hq⟩ := ih.1 u p h
        refine ⟨(aid, info) :: pre, q, post, by simp [heq], ?_, hq⟩
        intro q' hq'
        rcases List.mem_cons.mp hq' with hh | hmem
        · rw [hh]; exact hr
        · exact hpre q' hmem
      · constructor
        · intro h q hq
          rcases List.mem_cons.mp hq with hh | hq'
          · rw [hh]; exact hr
          · exact (ih.2.mp h) q hq'
        · intro hall
          exact ih.2.mpr (fun q hq => hall q (List.mem_cons_of_mem _ hq))

/-- C5 witness: on `regSkip` the entry advertising `searchFlights` without a
path is skipped and the second, complete entry is returned. -/
theorem c5_resolution_first_match_witness :
    ∃ pre q post, regSkip = pre ++ q :: post ∧
      (∀ q' ∈ pre, entryResolve q'.2 "searchFlights" = none) ∧
      entryResolve q.2 "searchFlights" =
        some ("http://127.0.0.1:5001", "/searchFlights") :=
  (c5_resolution_first_match regSkip "searchFlights").1
    "http://127.0.0.1:5001" "/searchFlights" rfl

/-! ### C8 -/

/-- C8: a descriptor enters the registry only when `serviceId` (`agentId`),
`baseAddress` (`endpointUrl`) and a non-empty operation set are all present;
a timeout / connection failure / malformed payload at one address (a
`failure` outcome) is skipped without affecting the processing of any other
address, and an invalid descriptor is likewise skipped — the discovery pass
never fails as a whole. -/
theorem c8_discovery_validation_and_skip :
    (∀ (c : AgentCard), (processCard c).isSome =
      (optStrTruthy c.agentId && optStrTruthy c.endpointUrl &&
        !c.capabilities.isEmpty)) ∧
    (∀ (reg : Registry) (o₁ o₂ : List FetchOutcome),
      discover_agents reg (o₁ ++ FetchOutcome.failure :: o₂) =
        discover_agents reg (o₁ ++ o₂)) ∧
    (∀ (reg : Registry) (o₁ o₂ : List FetchOutcome) (c : AgentCard),
      processCard c = none →
      discover_agents reg (o₁ ++ FetchOutcome.card c :: o₂) =
        discover_agents reg (o₁ ++ o₂)) := by
  refine ⟨?_, ?_, ?_⟩
  · intro c
    by_cases h : (optStrTruthy c.agentId && optStrTruthy c.endpointUrl &&
        !c.capabilities.isEmpty) = true
    · simp [processCard, h]
    · simp only [Bool.not_eq_true] at h
      simp [processCard, h]
  · intro reg o₁ o₂
    have : discoverNew (o₁ ++ FetchOutcome.failure :: o₂) =
        discoverNew (o₁ ++ o₂) := by
      simp [discoverNew, List.foldl_append, discoverStep]
    simp [discover_agents, this]
  · intro reg o₁ o₂ c hc
    have : discoverNew (o₁ ++ FetchOutcome.card c :: o₂) =
        discoverNew (o₁ ++ o₂) := by
      simp [discoverNew, List.foldl_append, discoverStep, hc]
    simp [discover_agents, this]

/-- C8 witness: the card without an `endpointUrl` is rejected, so a
discovery pass seeing only it leaves the registry exactly as a pass seeing
nothing. -/
theorem c8_discovery_validation_and_skip_witness :
    discover_agents regFix [FetchOutcome.card cardNoUrl] =
      discover_agents regFix [] :=
  c8_discovery_validation_and_skip.2.2 regFix [] [] cardNoUrl rfl

/-! ### C9 -/

theorem nodup_akeys_discoverStep {d : List (String × AgentInfo)}
    (h : (akeys d).Nodup) (o : FetchOutcome) :
    (akeys (discoverStep d o)).Nodup := by
  cases o with
  | failure => exact h
  | card c =>
    cases hp : processCard c with
    | none => simpa [discoverStep, hp] using h
    | some kv =>
      obtain ⟨aid, info⟩ := kv
      simpa [discoverStep, hp] using nodup_akeys_dinsert h

theorem nodup_akeys_discoverNew_aux (os : List FetchOutcome) :
    ∀ (acc : List (String × AgentInfo)), (akeys acc).Nodup →
      (akeys (os.foldl discoverStep acc)).Nodup := by
  induction os with
  | nil => intro acc h; exact h
  | cons o rest ih =>
    intro acc h
    exact ih (discoverStep acc o) (nodup_akeys_discoverStep h o)

theorem nodup_akeys_discoverNew (os : List FetchOutcome) :
    (akeys (discoverNew os)).Nodup :=
  nodup_akeys_discoverNew_aux os [] (by simp [akeys])

/-- C9: the discovery pass is idempotent — running it a second time over
fetch outcomes identical to the first leaves the registry exactly
unchanged (re-reported entries overwrite in place with equal values; no
entry is added or removed). -/
theorem c9_discovery_idempotent (reg : Registry) (outcomes : List FetchOutcome) :
    discover_agents (discover_agents reg outcomes) outcomes =
      discover_agents reg outcomes := by
  have hnd := nodup_akeys_discoverNew outcomes
  apply updAll_eq_self_of_alookup
  intro kv hkv
  obtain ⟨k, v⟩ := kv
  exact alookup_updAll_mem reg hnd hkv

/-! ### C2 -/

/-- C2 counterexample: with a flight booking recorded and a non-empty error
list, the status produced by the aggregation step is the two-word string
"Partial Success", not "PartialSuccess" as claimed. -/
theorem c2_counterexample :
    (finalize ["searchFlights"] (some "BK1") none none ["err"]).1 =
      "Partial Success" ∧
    (finalize ["searchFlights"] (some "BK1") none none ["err"]).1 ≠
      "PartialSuccess" := by
  constructor
  · rfl
  · decide

/-- C2 amended: with "Partial Success" (as spelled in both sources) in place
of "PartialSuccess", the claimed status characterization holds in both
planners: "Success" iff some truthy booking id was recorded and the error
list is empty, "Partial Success" iff some truthy booking id was recorded and
the error list is non-empty, and "Failed" iff no truthy booking id was
recorded, regardless of the error list. -/
theorem c2_amended_status_characterization (intents : List String)
    (fB hB cB : Option String) (errors : List String) :
    ((finalize intents fB hB cB errors).1 = "Success" ↔
      ((optStrTruthy fB || optStrTruthy hB || optStrTruthy cB) = true ∧ errors = [])) ∧
    ((finalize intents fB hB cB errors).1 = "Partial Success" ↔
      ((optStrTruthy fB || optStrTruthy hB || optStrTruthy cB) = true ∧ errors ≠ [])) ∧
    ((finalize intents fB hB cB errors).1 = "Failed" ↔
      (optStrTruthy fB || optStrTruthy hB || optStrTruthy cB) = false) ∧
    ((finalize_func intents fB hB cB errors).1 = "Success" ↔
      ((optStrTruthy fB || optStrTruthy hB || optStrTruthy cB) = true ∧ errors = [])) ∧
    ((finalize_func intents fB hB cB errors).1 = "Partial Success" ↔
      ((optStrTruthy fB || optStrTruthy hB || optStrTruthy cB) = true ∧ errors ≠ [])) ∧
    ((finalize_func intents fB hB cB errors).1 = "Failed" ↔
      (optStrTruthy fB || optStrTruthy hB || optStrTruthy cB) = false) := by
  cases hf : optStrTruthy fB <;> cases hh : optStrTruthy hB <;>
    cases hc : optStrTruthy cB <;> cases herr : errors <;>
    by_cases hint : intents.isEmpty <;>
    simp [finalize, finalize_func, booked_items, hf, hh, hc, hint]

/-! ### C7 -/

theorem EVal.not_isNull_iff (v : EVal) : (v.isNull = false) ↔ v ≠ EVal.vnull := by
  cases v <;> simp [EVal.isNull]

/-- C7 counterexample: in `planner_agent_func.py` the flight search payload
of a one-way trip is posted with its `None`-valued `returnDate` field still
present — null fields are not omitted before send. -/
theorem c7_counterexample :
    ("returnDate", EVal.vnull) ∈ call_agent_api_func_sent (flight_payload eOneWay) := by
  decide

/-- C7 amended: `planner_agent.py`'s `call_agent_api` sends exactly the
non-`None` fields of the payload (nulls omitted, every non-null field kept,
including falsy `""` and `0`), while `planner_agent_func.py`'s
`call_agent_api` posts the payload dict unchanged, nulls included. -/
theorem c7_amended_null_filtering (payload : List (String × EVal))
    (kv : String × EVal) :
    (kv ∈ call_agent_api_sent payload ↔ (kv ∈ payload ∧ kv.2 ≠ EVal.vnull)) ∧
    call_agent_api_func_sent payload = payload := by
  refine ⟨?_, rfl⟩
  simp [call_agent_api_sent, List.mem_filter, EVal.not_isNull_iff]

/-! ### C1 -/

/-- C1: evaluating the flight workflow at the failing input — a successful
remote call whose body is `{"flights": []}` — shows that `planner_agent.py`
records the malformed-response error, exactly as for a body with no
`flights` key at all; the `NoResults` message "Flight search returned no
available flights." is not produced (its branch is unreachable because
`elif search_response.get("flights"):` is falsy for an empty list).
`planner_agent_func.py` likewise collapses the two cases, into
"No flights found matching criteria.". -/
theorem c1_empty_list_and_missing_key_collapse :
    (flight_domain regFix ["searchFlights"] eFull ⟨none, some []⟩ bQuiet).errors =
      ["Flight search response was invalid (missing 'flights' key)."] ∧
    (flight_domain regFix ["searchFlights"] eFull ⟨none, none⟩ bQuiet).errors =
      ["Flight search response was invalid (missing 'flights' key)."] ∧
    "Flight search response was invalid (missing 'flights' key)." ≠
      "Flight search returned no available flights." ∧
    (flight_domain_func ["searchFlights"] eFull ⟨none, some []⟩ bQuiet).errors =
      ["No flights found matching criteria."] ∧
    (flight_domain_func ["searchFlights"] eFull ⟨none, none⟩ bQuiet).errors =
      ["No flights found matching criteria."] := by
  refine ⟨rfl, rfl, by decide, rfl, rfl⟩

/-! ### C3 -/

/-- C3 counterexample: when discovery ends with zero services (empty
registry), `planner_agent.py` rejects the planning request at the request
level with a discovery-level `500` error response — the domain workflows do
not run and no per-lookup "no capability found" error is produced. -/
theorem c3_counterexample :
    plan_trip [] ["searchFlights"] eFull envQuiet =
      PlanResponse.earlyError 500 "Failed"
        "Configuration error: No specialist agents discovered."
        ["Failed to discover specialist agents."] := rfl

/-- C3 amended: an empty registry is fatal at the request level in
`planner_agent.py` (`500`, status "Failed", summary "Configuration error:
No specialist agents discovered."); the per-lookup "Could not find
agent/path" domain error is surfaced only when the registry is non-empty
but lacks the requested capability. -/
theorem c3_amended_empty_registry_fatal (reg : Registry) (intents : List String)
    (e : Entities) (env : RemoteEnv) :
    (plan_trip [] intents e env =
      PlanResponse.earlyError 500 "Failed"
        "Configuration error: No specialist agents discovered."
        ["Failed to discover specialist agents."]) ∧
    (reg.isEmpty = false →
      intents.contains "searchFlights" = true →
      find_agent_for_capability reg "searchFlights" = none →
      (flight_domain reg intents e env.flightSearch env.flightBook).errors =
        ["Could not find agent/path for 'searchFlights' capability."]) := by
  constructor
  · rfl
  · intro _ hint hfind
    have hmem : "searchFlights" ∈ intents := by
      simpa using hint
    simp [flight_domain, hmem, hfind]

/-- C3 witness: on the non-empty hotel-only registry the flight lookup
fails per-lookup, with the capability error recorded by the flight domain. -/
theorem c3_amended_empty_registry_fatal_witness :
    (flight_domain regHotelOnly ["searchFlights"] eFull envQuiet.flightSearch
        envQuiet.flightBook).errors =
      ["Could not find agent/path for 'searchFlights' capability."] :=
  (c3_amended_empty_registry_fatal regHotelOnly ["searchFlights"] eFull envQuiet).2
    rfl rfl rfl

/-! ### C4 -/

/-- C4 counterexample: a request in which no intents are recognized and no
entity is usable is answered by `planner_agent.py` with the generic LLM
failure text, which does not state "could not understand". -/
theorem c4_counterexample :
    plan_trip regFix [] Entities.allNull envQuiet =
      PlanResponse.earlyError 500 "Failed"
        "Failed to process request using the local LLM. Check Planner Agent logs for details."
        ["LLM processing failed or returned no usable data."] ∧
    strHas
      "Failed to process request using the local LLM. Check Planner Agent logs for details."
      "ould not understand" = false := by
  refine ⟨rfl, by decide⟩

/-- C4 amended: with no recognized intents the response always has status
"Failed" and empty domain errors; the summary states "could not
understand" in `planner_agent_func.py` always and in `planner_agent.py`
whenever at least one entity value is truthy — but when additionally no
entity is usable, `planner_agent.py` instead returns the early `500` LLM
failure response with a generic summary. -/
theorem c4_amended_no_intents (reg : Registry) (intents : List String)
    (e : Entities) (env : RemoteEnv) :
    (reg.isEmpty = false → intents = [] → e.anyTruthy = true →
      plan_trip reg intents e env =
        PlanResponse.completed "Failed"
          "Could not understand the request or identify any services to book (LLM parsing issue)."
          none none none []) ∧
    (intents = [] →
      plan_trip_func intents e env =
        PlanResponse.completed "Failed"
          "Could not understand the request or identify any services to book."
          none none none []) ∧
    (reg.isEmpty = false → intents = [] → e.anyTruthy = false →
      plan_trip reg intents e env =
        PlanResponse.earlyError 500 "Failed"
          "Failed to process request using the local LLM. Check Planner Agent logs for details."
          ["LLM processing failed or returned no usable data."]) ∧
    strHas
      "Could not understand the request or identify any services to book (LLM parsing issue)."
      "ould not understand" = true ∧
    strHas "Could not understand the request or identify any services to book."
      "ould not understand" = true := by
  refine ⟨?_, ?_, ?_, by decide, by decide⟩
  · intro hreg hint hany
    subst hint
    simp [plan_trip, hreg, hany, flight_domain, hotel_domain, car_domain,
      finalize, booked_items, optStrTruthy]
  · intro hint
    subst hint
    simp [plan_trip_func, flight_domain_func, hotel_domain_func,
      car_domain_func, finalize_func, booked_items, optStrTruthy]
  · intro hreg hint hany
    subst hint
    simp [plan_trip, hreg, hany]

/-- C4 witness: concrete no-intent request with usable entities gets the
"could not understand" summary from `planner_agent.py`. -/
theorem c4_amended_no_intents_witness :
    plan_trip regFix [] eFull envQuiet =
      PlanResponse.completed "Failed"
        "Could not understand the request or identify any services to book (LLM parsing issue)."
        none none none [] :=
  (c4_amended_no_intents regFix [] eFull envQuiet).1 rfl rfl rfl

/-! ### C6 -/

/-- C6 counterexample: flight search intent present and the required
`origin` slot empty, but on a registry lacking the `searchFlights`
capability `planner_agent.py` records the capability-not-found error (which
does not name the missing slot) and no validation error at all — resolution
runs before validation. -/
theorem c6_counterexample :
    (flight_domain regHotelOnly ["searchFlights"] eNoOrigin sQuiet bQuiet).calls =
      [] ∧
    (flight_domain regHotelOnly ["searchFlights"] eNoOrigin sQuiet bQuiet).errors =
      ["Could not find agent/path for 'searchFlights' capability."] ∧
    strHas "Could not find agent/path for 'searchFlights' capability." "origin" =
      false := by
  refine ⟨rfl, rfl, by decide⟩

/-- C6 amended: for a domain whose search intent is present and whose
required-slot check fails, the orchestrator makes zero outbound calls for
that domain and appends exactly one validation error naming all missing
slots — in `planner_agent.py` provided the search capability resolves
(resolution precedes validation there, and the check reads the raw entity
map), and in `planner_agent_func.py` unconditionally, with the check
applied to the constructed payload. -/
theorem c6_amended_validation_short_circuit (reg : Registry)
    (intents : List String) (e : Entities) (sresp : SearchResp)
    (bresp : BookResp) (u p : String) :
    (intents.contains "searchFlights" = true →
      find_agent_for_capability reg "searchFlights" = some (u, p) →
      (missingFromEntities required_flight_fields e).isEmpty = false →
      (flight_domain reg intents e sresp bresp).calls = [] ∧
      (flight_domain reg intents e sresp bresp).errors =
        ["Missing required flight details (from LLM output): " ++
          String.intercalate ", " (missingFromEntities required_flight_fields e) ++
          "."]) ∧
    (intents.contains "searchHotels" = true →
      find_agent_for_capability reg "searchHotels" = some (u, p) →
      (missingFromEntities required_hotel_fields e).isEmpty = false →
      (hotel_domain reg intents e sresp bresp).calls = [] ∧
      (hotel_domain reg intents e sresp bresp).errors =
        ["Missing required hotel details (from LLM output): " ++
          String.intercalate ", " (missingFromEntities required_hotel_fields e) ++
          "."]) ∧
    (intents.contains "searchCars" = true →
      find_agent_for_capability reg "searchCars" = some (u, p) →
      (missingFromEntities required_car_fields e).isEmpty = false →
      (car_domain reg intents e sresp bresp).calls = [] ∧
      (car_domain reg intents e sresp bresp).errors =
        ["Missing required car rental details (from LLM output): " ++
          String.intercalate ", " (missingFromEntities required_car_fields e) ++
          "."]) ∧
    (intents.contains "searchFlights" = true →
      (missingFromPayload required_flight_fields (flight_payload e)).isEmpty = false →
      (flight_domain_func intents e sresp bresp).calls = [] ∧
      (flight_domain_func intents e sresp bresp).errors =
        ["Missing required flight details: " ++
          String.intercalate ", "
            (missingFromPayload required_flight_fields (flight_payload e)) ++
          "."]) ∧
    (intents.contains "searchHotels" = true →
      (missingFromPayload required_hotel_fields (hotel_payload e)).isEmpty = false →
      (hotel_domain_func intents e sresp bresp).calls = [] ∧
      (hotel_domain_func intents e sresp bresp).errors =
        ["Missing required hotel details: " ++
          String.intercalate ", "
            (missingFromPayload required_hotel_fields (hotel_payload e)) ++
          "."]) ∧
    (intents.contains "searchCars" = true →
      (missingFromPayload required_car_fields (car_payload e)).isEmpty = false →
      (car_domain_func intents e sresp bresp).calls = [] ∧
      (car_domain_func intents e sresp bresp).errors =
        ["Missing required car rental details: " ++
          String.intercalate ", "
            (missingFromPayload required_car_fields (car_payload e)) ++
          "."]) := by
  refine ⟨?_, ?_, ?_, ?_, ?_, ?_⟩
  · intro hint hfind hmiss
    have hmem : "searchFlights" ∈ intents := by simpa using hint
    constructor <;> simp [flight_domain, hmem, hfind, hmiss]
  · intro hint hfind hmiss
    have hmem : "searchHotels" ∈ intents := by simpa using hint
    constructor <;> simp [hotel_domain, hmem, hfind, hmiss]
  · intro hint hfind hmiss
    have hmem : "searchCars" ∈ intents := by simpa using hint
    constructor <;> simp [car_domain, hmem, hfind, hmiss]
  · intro hint hmiss
    have hmem : "searchFlights" ∈ intents := by simpa using hint
    constructor <;> simp [flight_domain_func, hmem, hmiss]
  · intro hint hmiss
    have hmem : "searchHotels" ∈ intents := by simpa using hint
    constructor <;> simp [hotel_domain_func, hmem, hmiss]
  · intro hint hmiss
    have hmem : "searchCars" ∈ intents := by simpa using hint
    constructor <;> simp [car_domain_func, hmem, hmiss]

/-- C6 witness: with `origin` missing and the flight capability resolvable,
`planner_agent.py` makes no call and records the single validation error
naming `origin`. -/
theorem c6_amended_validation_short_circuit_witness :
    (flight_domain regFix ["searchFlights"] eNoOrigin sQuiet bQuiet).calls = [] ∧
    (flight_domain regFix ["searchFlights"] eNoOrigin sQuiet bQuiet).errors =
      ["Missing required flight details (from LLM output): origin."] :=
  (c6_amended_validation_short_circuit regFix ["searchFlights"] eNoOrigin sQuiet
    bQuiet "http://127.0.0.1:5001" "/searchFlights").1 rfl rfl rfl

/-! ### C10 -/

theorem Entities.get_location (e : Entities) : e.get "location" = e.location := rfl

theorem Entities.get_checkInDate (e : Entities) :
    e.get "checkInDate" = e.checkInDate := rfl

theorem Entities.get_checkOutDate (e : Entities) :
    e.get "checkOutDate" = e.checkOutDate := rfl

theorem Entities.get_guests (e : Entities) : e.get "guests" = e.guests := rfl

/-- Whenever its intent is present and the payload-based validation passes,
the func hotel workflow's first outbound call is the hotel search with the
raw payload. -/
theorem hotel_domain_func_calls_head (intents : List String) (e : Entities)
    (sresp : SearchResp) (bresp : BookResp)
    (hmem : "searchHotels" ∈ intents)
    (hmp : missingFromPayload required_hotel_fields (hotel_payload e) = []) :
    (hotel_domain_func intents e sresp bresp).calls.head? =
      some ⟨HOTEL_AGENT_URL, "searchHotels",
        call_agent_api_func_sent (hotel_payload e)⟩ := by
  cases hse : sresp.error with
  | some m => simp [hotel_domain_func, hmem, hmp, hse]
  | none =>
    by_cases hit : respListTruthy sresp.items = true
    · by_cases hb : "bookHotel" ∈ intents
      · cases hbe : bresp.error with
        | some m => simp [hotel_domain_func, hmem, hmp, hse, hit, hb, hbe]
        | none =>
          by_cases hst : bresp.status = some "Confirmed"
          · simp [hotel_domain_func, hmem, hmp, hse, hit, hb, hbe, hst]
          · simp [hotel_domain_func, hmem, hmp, hse, hit, hb, hbe, hst]
      · simp [hotel_domain_func, hmem, hmp, hse, hit, hb]
    · simp [hotel_domain_func, hmem, hmp, hse, hit]

/-- C10: hotel required-slot validation in `planner_agent.py` reads the raw
entity map, not the constructed payload: with a truthy
`hotel_location_preference`, a falsy `location`, and the remaining required
hotel slots truthy, `planner_agent.py` records the validation error naming
`location` and makes no hotel call, although the payload `location` field
would have been non-empty; `planner_agent_func.py` validates the payload,
finds nothing missing, and proceeds with the hotel search call. -/
theorem c10_hotel_validation_divergence (reg : Registry) (intents : List String)
    (e : Entities) (sresp : SearchResp) (bresp : BookResp) (u p : String) :
    intents.contains "searchHotels" = true →
    find_agent_for_capability reg "searchHotels" = some (u, p) →
    e.hotel_location_preference.truthy = true →
    e.location.truthy = false →
    e.checkInDate.truthy = true →
    e.checkOutDate.truthy = true →
    e.guests.truthy = true →
    missingFromEntities required_hotel_fields e = ["location"] ∧
    (hotel_domain reg intents e sresp bresp).errors =
      ["Missing required hotel details (from LLM output): location."] ∧
    (hotel_domain reg intents e sresp bresp).calls = [] ∧
    missingFromPayload required_hotel_fields (hotel_payload e) = [] ∧
    (hotel_domain_func intents e sresp bresp).calls.head? =
      some ⟨HOTEL_AGENT_URL, "searchHotels",
        call_agent_api_func_sent (hotel_payload e)⟩ := by
  intro hint hfind hpref hloc hci hco hg
  have hmem : "searchHotels" ∈ intents := by simpa using hint
  have hm : missingFromEntities required_hotel_fields e = ["location"] := by
    simp [missingFromEntities, required_hotel_fields, Entities.get_location,
      Entities.get_checkInDate, Entities.get_checkOutDate, Entities.get_guests,
      hloc, hci, hco, hg]
  have hmp : missingFromPayload required_hotel_fields (hotel_payload e) = [] := by
    simp [missingFromPayload, required_hotel_fields, hotel_payload, alookup,
      hpref, hci, hco, hg]
  refine ⟨hm, ?_, ?_, hmp, hotel_domain_func_calls_head intents e sresp bresp hmem hmp⟩
  · simp [hotel_domain, hmem, hfind, hm]
    rfl
  · simp [hotel_domain, hmem, hfind, hm]

/-- C10 witness: the divergence at a concrete entity map with
`hotel_location_preference = "Near Eiffel Tower"` and empty `location`. -/
theorem c10_hotel_validation_divergence_witness :
    (hotel_domain regFix ["searchHotels"] ePref sQuiet bQuiet).errors =
      ["Missing required hotel details (from LLM output): location."] ∧
    (hotel_domain regFix ["searchHotels"] ePref sQuiet bQuiet).calls = [] ∧
    (hotel_domain_func ["searchHotels"] ePref sQuiet bQuiet).calls.head? =
      some ⟨HOTEL_AGENT_URL, "searchHotels",
        call_agent_api_func_sent (hotel_payload ePref)⟩ := by
  have h := c10_hotel_validation_divergence regFix ["searchHotels"] ePref sQuiet
    bQuiet "http://127.0.0.1:5002" "/searchHotels" rfl rfl rfl rfl rfl rfl rfl
  exact ⟨h.2.1, h.2.2.1, h.2.2.2.2⟩
